import Mathlib

/-!
# Verification of the nxsim agent–topology protocol (`nxsim/agents.py`)

A shallow embedding of `nxsim/agents.py` (commit under review) in Lean 4.

Modelling conventions:
* Python values that can sit in an agent's `state` or in `agent_id` are
  represented by the small dynamic type `PyVal` (`None`, `int`, `str`);
  `len` is partial on it exactly as in Python.
* The shared networkx graph is `Graph A`: a list of `(node-id, payload)`
  pairs (payload = the bound agent, iteration order = list order) plus a
  list of undirected attributed edges.
* Python exceptions become the `Except PyErr` monad; `assert c, E` raises
  an `AssertionError` when `c` is false, and an expression that raises
  inside the assert condition (e.g. `len(None)`) raises that error first.
* The simpy environment is external: its only observable uses here are
  `is not None` checks, process registration (which calls `self.run()`),
  and reading the current simulated time, which we pass as a `now : Nat`
  argument to the logger step.
* `nxsim/constants.py` and `nxsim/utils.py` are not part of the sources
  under review; the record types and helpers they provide are modelled
  from the specification and marked as such.
-/

/-- A Python value as used for agent states and ids in this code base:
`None`, an `int`, or a `str`. -/
inductive PyVal where
  | none
  | int (n : Int)
  | str (s : String)
  deriving DecidableEq, Repr

/-- A Python exception as raised by the code under review. -/
inductive PyErr where
  | assertionError (msg : String)
  | typeError (msg : String)
  | keyError (k : Nat)
  | valueError (msg : String)
  | networkxError (msg : String)
  | notImplementedError
  deriving DecidableEq, Repr

/-- Python `len` on a `PyVal`: defined for `str` (and that is the only case
the code exercises for non-failing states), a `TypeError` otherwise —
exactly Python's behaviour for `len(None)` / `len(0)`. -/
def pyLen : PyVal → Except PyErr Nat
  | .str s => .ok s.length
  | .none => .error (.typeError "object of type NoneType has no len()")
  | .int _ => .error (.typeError "object of type int has no len()")

/-- The data an agent instance carries after `BaseAgent.__init__` has run
(the scheduler handle and the process handle are external and carry no
information in the embedding; `global_topology` is the single shared graph,
not duplicated per agent). -/
structure Agent where
  id : PyVal
  state : PyVal
  name : String
  state_params : List (String × PyVal)
  global_params : List (String × PyVal)
  deriving DecidableEq, Repr

/-- A networkx graph with node payloads of type `A`: `nodes` binds each
node id to its payload (`node[n]['agent']` in the source), `edges` are
undirected and carry one attribute value. List order is the store's
iteration order. -/
structure Graph (A : Type) where
  nodes : List (Nat × A)
  edges : List ((Nat × Nat) × PyVal)
  deriving DecidableEq, Repr

/-- The node ids of a graph, in iteration order (`G.nodes()`). -/
def nodeIds {A : Type} (g : Graph A) : List Nat := g.nodes.map Prod.fst

/-- Adjacency: `a` and `b` are joined by an edge (in either orientation). -/
def adjacent {A : Type} (g : Graph A) (a b : Nat) : Bool :=
  g.edges.any fun e => (e.1.1 == a && e.1.2 == b) || (e.1.1 == b && e.1.2 == a)

/-- `BaseAgent.__init__` (`agents.py` lines 12–53).

Arguments appear with their Python post-default values: a Python call that
omits `environment`, `state` or `global_topology` passes `None`
(= `Option.none` / `PyVal.none`), and one that omits `agent_id` passes the
declared default `0` (= `PyVal.int 0`) — see `baseAgentInitNoAgentId`.

`runOverridden` is true when the object's class supplies a generator
method `run` (every concrete agent subclass); for `BaseAgent` itself — or
any subclass that does not override `run` — the registration line
`self.action = self.env.process(self.run())` evaluates `self.run()`, whose
base implementation raises `NotImplementedError`, so construction fails at
that point. -/
def baseAgentInit (environment : Option Unit) (agent_id : PyVal) (state : PyVal)
    (global_topology : Option (Graph Agent)) (name : String)
    (global_params : List (String × PyVal)) (state_params : List (String × PyVal))
    (runOverridden : Bool) : Except PyErr Agent := do
  if environment = Option.none then
    throw (.assertionError "__init__ missing 1 required keyword argument: environment")
  if agent_id = PyVal.none then
    throw (.assertionError "__init__ missing 1 required keyword argument: agent_id")
  let n ← pyLen state
  if n = 0 then
    throw (.assertionError "__init__ missing 1 required keyword argument: state")
  if global_topology = Option.none then
    throw (.assertionError "__init__ missing 1 required keyword argument: global_topology")
  if runOverridden then
    pure { id := agent_id, state := state, name := name,
           state_params := state_params, global_params := global_params }
  else
    throw .notImplementedError

/-- A Python call `BaseAgent(environment=e, state=s, global_topology=g)`
that OMITS `agent_id`: the parameter takes its declared default `0`
(`agents.py` line 12), and `name`/`global_params`/`state_params` take
their defaults as well. -/
def baseAgentInitNoAgentId (environment : Option Unit) (state : PyVal)
    (global_topology : Option (Graph Agent)) (runOverridden : Bool) : Except PyErr Agent :=
  baseAgentInit environment (PyVal.int 0) state global_topology "network_process" [] [] runOverridden

/-- `BaseAgent.get_agent` (lines 98–100): `self.global_topology.node[agent_id]['agent']`;
a missing node id raises a `KeyError`. -/
def get_agent (g : Graph Agent) (agent_id : Nat) : Except PyErr Agent :=
  match g.nodes.lookup agent_id with
  | some a => .ok a
  | Option.none => .error (.keyError agent_id)

/-- networkx `Graph.add_node(n, attr_dict)`: update the payload if the node
exists, otherwise append it in iteration order. -/
def graphAddNode (g : Graph Agent) (k : Nat) (a : Agent) : Graph Agent :=
  if (nodeIds g).contains k then
    { g with nodes := g.nodes.map fun nd => if nd.1 = k then (k, a) else nd }
  else
    { g with nodes := g.nodes ++ [(k, a)] }

/-- networkx `Graph.add_edge(u, v, ...)` in the guarded position of
`BaseEnvironmentAgent.add_edge` (both endpoints already checked to be
nodes): overwrite the attributes of an existing edge between the
endpoints, else insert a fresh edge. -/
def graphAddEdge (g : Graph Agent) (a b : Nat) (attr : PyVal) : Graph Agent :=
  if g.edges.any (fun e => (e.1.1 == a && e.1.2 == b) || (e.1.1 == b && e.1.2 == a)) then
    { g with edges := g.edges.map fun e =>
        if (e.1.1 == a && e.1.2 == b) || (e.1.1 == b && e.1.2 == a) then (e.1, attr) else e }
  else
    { g with edges := g.edges ++ [((a, b), attr)] }

/-- The slice of the `NetworkSimulation` object the environment agent
reaches through `self.sim`: the shared graph `G`, the monotone fresh-id
counter, and the global parameters. -/
structure Simulation where
  G : Graph Agent
  id_counter : Nat
  global_params : List (String × PyVal)
  deriving DecidableEq, Repr

/-- `BaseEnvironmentAgent.add_node` (lines 144–168):
reads `agent_id = int(self.sim.id_counter)`, constructs the new agent via
the subclass constructor (which runs `BaseAgent.__init__`), inserts the
node `self.sim.G.add_node(self.sim.id_counter, dict agent := agent)`,
increments the counter, and returns the id. `runOverridden` is true for
any concrete `agent_type`; a constructor exception propagates and the
graph and counter are left untouched. -/
def add_node (sim : Simulation) (state : PyVal) (name : String)
    (state_params : List (String × PyVal)) (runOverridden : Bool) :
    Except PyErr (Simulation × Nat) := do
  let agent_id := sim.id_counter
  let agent ← baseAgentInit (some ()) (PyVal.int agent_id) state (some sim.G) name
      sim.global_params state_params runOverridden
  pure ({ sim with
            G := graphAddNode sim.G sim.id_counter agent,
            id_counter := sim.id_counter + 1 }, agent_id)

/-- `BaseEnvironmentAgent.add_edge` (lines 171–196): validate that both
ids are existing nodes — checking `agent_id1` first — and raise a
`ValueError` naming the missing one; otherwise delegate to the graph
store. -/
def add_edge (g : Graph Agent) (agent_id1 agent_id2 : Nat) (attr : PyVal) :
    Except PyErr (Graph Agent) :=
  if (nodeIds g).contains agent_id1 then
    if (nodeIds g).contains agent_id2 then
      .ok (graphAddEdge g agent_id1 agent_id2 attr)
    else
      .error (.valueError ("agent_id2[" ++ toString agent_id2 ++
        "] not in list of existing agents in the network"))
  else
    .error (.valueError ("agent_id1[" ++ toString agent_id1 ++
      "] not in list of existing agents in the network"))

/-- `BaseAgent.remove_node` (lines 102–109), i.e. networkx
`Graph.remove_node`: drop the node and every incident edge; removing an
absent node raises a `NetworkXError`. -/
def remove_node (g : Graph Agent) (agent_id : Nat) : Except PyErr (Graph Agent) :=
  if (nodeIds g).contains agent_id then
    .ok { nodes := g.nodes.filter fun nd => nd.1 ≠ agent_id,
          edges := g.edges.filter fun e => e.1.1 ≠ agent_id && e.1.2 ≠ agent_id }
  else
    .error (.networkxError ("The node " ++ toString agent_id ++ " is not in the graph."))

/-- networkx `Graph.neighbors(v)`: the nodes adjacent to `v`, a
`NetworkXError` when `v` itself is not a node. -/
def neighbors {A : Type} (g : Graph A) (v : Nat) : Except PyErr (List Nat) :=
  if (nodeIds g).contains v then
    .ok ((nodeIds g).filter fun u => adjacent g v u)
  else
    .error (.networkxError ("The node " ++ toString v ++ " is not in the graph."))

/-- The list comprehension `[self.global_topology.node[_]['agent'] for _ in agents]`:
look every id up in the node store, raising `KeyError` at the first
missing one. -/
def lookupAgents (g : Graph Agent) : List Nat → Except PyErr (List Agent)
  | [] => .ok []
  | v :: vs =>
    match g.nodes.lookup v with
    | some a => (lookupAgents g vs).map (a :: ·)
    | Option.none => .error (.keyError v)

/-- `BaseAgent.get_agents` (lines 63–84), the single query primitive:
select by neighbourhood (`limit_neighbors`) and then, when `state` is
given, by state equality. `selfId` is `self.id`, the querying agent's
node. -/
def get_agents (g : Graph Agent) (selfId : Nat) (state : Option PyVal)
    (limit_neighbors : Bool) : Except PyErr (List Agent) := do
  let ids ← if limit_neighbors then neighbors g selfId else .ok (nodeIds g)
  let ags ← lookupAgents g ids
  match state with
  | Option.none => pure ags
  | some s => pure (ags.filter fun a => a.state == s)

/-- All ways of inserting `a` into a list (helper for `perms`). -/
def insertions (a : Nat) : List Nat → List (List Nat)
  | [] => [[a]]
  | b :: l => (a :: b :: l) :: (insertions a l).map (b :: ·)

/-- All permutations of a list (executable, structurally recursive). -/
def perms : List Nat → List (List Nat)
  | [] => [[]]
  | a :: l => (perms l).flatMap (insertions a)

/-- Whether the positional pairing `nodeIds g1 ↦ p` is an isomorphism:
same length and pointwise-identical adjacency. -/
def isIsoWith {A B : Type} (g1 : Graph A) (g2 : Graph B) (p : List Nat) : Bool :=
  ((nodeIds g1).length == p.length) &&
  (List.range (nodeIds g1).length).all fun i =>
    (List.range (nodeIds g1).length).all fun j =>
      adjacent g1 ((nodeIds g1).getD i 0) ((nodeIds g1).getD j 0) ==
        adjacent g2 (p.getD i 0) (p.getD j 0)

/-- The specification's notion of structural equivalence ("same
node/edge count and adjacency up to relabeling — an isomorphism test"):
some ordering of `g2`'s nodes is adjacency-isomorphic to `g1`'s node
list. This is the spec-side definition, to be compared with the code's
`fast_could_be_isomorphic`. -/
def specIsomorphic {A B : Type} (g1 : Graph A) (g2 : Graph B) : Bool :=
  (perms (nodeIds g2)).any (isIsoWith g1 g2)

/-- networkx degree of `v`: the number of nodes adjacent to `v`. -/
def degree {A : Type} (g : Graph A) (v : Nat) : Nat :=
  (nodeIds g).countP fun u => adjacent g v u

/-- Twice the networkx triangle count of `v`: ordered pairs `(u, w)` of
nodes forming a triangle with `v` (an injective recoding of
`nx.triangles`, so fingerprint equality is unchanged). -/
def triPairs {A : Type} (g : Graph A) (v : Nat) : Nat :=
  ((nodeIds g).map fun u =>
    (nodeIds g).countP fun w => adjacent g v u && adjacent g v w && adjacent g u w).sum

/-- The per-node `(degree, triangles)` invariant list that
`nx.fast_could_be_isomorphic` sorts and compares. -/
def fingerprint {A : Type} (g : Graph A) : List (Nat × Nat) :=
  (nodeIds g).map fun v => (degree g v, triPairs g v)

/-- Equality of the two sorted invariant lists, rendered as multiset
equality (same length, same multiplicities). -/
def multisetEqB (l1 l2 : List (Nat × Nat)) : Bool :=
  (l1.length == l2.length) &&
  l1.all fun x => (l1.countP fun y => y == x) == (l2.countP fun y => y == x)

/-- `nx.fast_could_be_isomorphic(G1, G2)` (networkx 1.x): equal node
count and equal sorted per-node `(degree, triangles)` sequences — a
necessary condition for isomorphism, not an isomorphism test. -/
def fast_could_be_isomorphic {A B : Type} (g1 : Graph A) (g2 : Graph B) : Bool :=
  ((nodeIds g1).length == (nodeIds g2).length) &&
  multisetEqB (fingerprint g1) (fingerprint g2)

/-- Modelled from the spec: `StateTuple(time, states)` from
`nxsim/constants.py` (not under review) — the ordered state record of one
sampling tick. -/
structure StateTuple where
  time : Nat
  states : List PyVal
  deriving DecidableEq, Repr

/-- Modelled from the spec: `TopologyTuple(time, topology)` from
`nxsim/constants.py` (not under review) — a time-stamped structural
snapshot. -/
structure TopologyTuple where
  time : Nat
  topology : Graph Unit
  deriving DecidableEq, Repr

/-- Modelled from the spec: `utils.create_copy_without_data` from
`nxsim/utils.py` (not under review) — "a structure-only copy of the
topology, stripped of agent payload": same nodes and edges, no node
payload, no edge data. -/
def create_copy_without_data {A : Type} (g : Graph A) : Graph Unit :=
  { nodes := g.nodes.map fun nd => (nd.1, ()),
    edges := g.edges.map fun e => (e.1, PyVal.none) }

/-- The mutable fields of a `LoggingAgent` (lines 202–225), in source
order; `topology` starts as the empty `nx.Graph()`. -/
structure LoggerState where
  dir_path : String
  interval : Nat
  state_tuples : List StateTuple
  state_vector_tuples : List StateTuple
  topology_tuples : List TopologyTuple
  topology : Graph Unit
  deriving DecidableEq, Repr

/-- A fresh `LoggingAgent`'s state after `__init__`. -/
def loggerInit (dir_path : String) (logging_interval : Nat) : LoggerState :=
  { dir_path := dir_path, interval := logging_interval,
    state_tuples := [], state_vector_tuples := [], topology_tuples := [],
    topology := { nodes := [], edges := [] } }

/-- `LoggingAgent.log_current_state` (lines 232–242), one sampling tick:
append a `StateTuple` of all node-bound agents' states unconditionally;
then, exactly when `nx.fast_could_be_isomorphic` between the stored
snapshot and (a copy of) the current graph is false, replace the stored
snapshot by a structure-only copy and append a `TopologyTuple`. `G` is
`self.sim.G` and `now` is the scheduler's current-time reading. -/
def log_current_state (l : LoggerState) (G : Graph Agent) (now : Nat) : LoggerState :=
  let states := G.nodes.map fun nd => nd.2.state
  let l1 := { l with state_tuples := l.state_tuples ++ [{ time := now, states := states }] }
  if !fast_could_be_isomorphic l.topology G then
    let snap := create_copy_without_data G
    { l1 with
        topology := snap,
        topology_tuples := l1.topology_tuples ++ [{ time := now, topology := snap }] }
  else
    l1

/-- `LoggingAgent.run` (lines 227–230) over a finite schedule: one
`log_current_state` call per tick, fed the graph and clock reading of
that tick. -/
def loggerRun (l : LoggerState) (ticks : List (Graph Agent × Nat)) : LoggerState :=
  ticks.foldl (fun acc t => log_current_state acc t.1 t.2) l

/-- Modelled from the spec: the record `utils.log_all_to_file`
(`nxsim/utils.py`, not under review) hands to persistent storage — "the
accumulated StateTuple sequence keyed by trial_id". -/
structure SerializedTrial where
  trial_id : Nat
  dir_path : String
  states : List StateTuple
  deriving DecidableEq, Repr

/-- `LoggingAgent.log_trial_to_files` (lines 244–247): a missing
(`None`) `trial_id` fails the assert before anything is serialized;
otherwise the accumulated state tuples are handed off keyed by the trial
id. -/
def log_trial_to_files (l : LoggerState) (trial_id : Option Nat) :
    Except PyErr SerializedTrial :=
  match trial_id with
  | Option.none => .error (.assertionError
      "missing 1 required keyword argument: trial_id. Cannot be set to NoneType")
  | some t => .ok { trial_id := t, dir_path := l.dir_path, states := l.state_tuples }

/-! ## Helper lemmas on association-list lookup -/

lemma lookup_filter_ne (l : List (Nat × Agent)) (k : Nat) :
    (l.filter fun nd => nd.1 ≠ k).lookup k = Option.none := by
  induction l with
  | nil => rfl
  | cons hd tl ih =>
    obtain ⟨k1, v⟩ := hd
    by_cases h : k1 = k
    · simpa [List.filter_cons, h] using ih
    · have hb : (k == k1) = false := by simp [Ne.symm h]
      simpa [List.filter_cons, h, List.lookup, hb] using ih

lemma lookup_append_single (l : List (Nat × Agent)) (k : Nat) (a : Agent)
    (h : k ∉ l.map Prod.fst) : (l ++ [(k, a)]).lookup k = some a := by
  induction l with
  | nil => simp [List.lookup]
  | cons hd tl ih =>
    obtain ⟨k1, v⟩ := hd
    simp only [List.map_cons, List.mem_cons, not_or] at h
    have hb : (k == k1) = false := by simp [h.1]
    simp [List.lookup, hb, ih h.2]

lemma lookup_map_replace (l : List (Nat × Agent)) (k : Nat) (a : Agent)
    (h : k ∈ l.map Prod.fst) :
    (l.map fun nd => if nd.1 = k then (k, a) else nd).lookup k = some a := by
  induction l with
  | nil => simp at h
  | cons hd tl ih =>
    obtain ⟨k1, v⟩ := hd
    by_cases hk : k1 = k
    · subst hk
      rw [List.map_cons, if_pos (show (k1, v).1 = k1 from rfl)]
      simp [List.lookup]
    · have hb : (k == k1) = false := by simp [Ne.symm hk]
      have hm : k ∈ tl.map Prod.fst := by
        simp only [List.map_cons, List.mem_cons] at h
        exact h.resolve_left fun hkk => hk hkk.symm
      rw [List.map_cons, if_neg (show ¬(k1, v).1 = k from hk)]
      simp [List.lookup, hb, ih hm]

lemma lookup_isSome_of_mem (l : List (Nat × Agent)) (k : Nat)
    (h : k ∈ l.map Prod.fst) : ∃ a, l.lookup k = some a := by
  induction l with
  | nil => simp at h
  | cons hd tl ih =>
    obtain ⟨k1, v⟩ := hd
    by_cases hk : k = k1
    · exact ⟨v, by simp [List.lookup, hk]⟩
    · have hb : (k == k1) = false := by simp [hk]
      have hm : k ∈ tl.map Prod.fst := by
        simp only [List.map_cons, List.mem_cons] at h
        exact h.resolve_left hk
      obtain ⟨a, ha⟩ := ih hm
      exact ⟨a, by simp [List.lookup, hb, ha]⟩

lemma lookupAgents_ok_of_mem (g : Graph Agent) (ids : List Nat)
    (h : ∀ v ∈ ids, v ∈ nodeIds g) : ∃ l, lookupAgents g ids = .ok l := by
  induction ids with
  | nil => exact ⟨[], rfl⟩
  | cons v vs ih =>
    obtain ⟨a, ha⟩ := lookup_isSome_of_mem g.nodes v (h v (List.mem_cons_self v vs))
    obtain ⟨l, hl⟩ := ih fun u hu => h u (List.mem_cons_of_mem v hu)
    exact ⟨a :: l, by simp [lookupAgents, ha, hl, Except.map]⟩

lemma mem_of_lookupAgents (g : Graph Agent) (ids : List Nat) (l : List Agent)
    (hok : lookupAgents g ids = .ok l) :
    ∀ a ∈ l, ∃ v ∈ ids, g.nodes.lookup v = some a := by
  induction ids generalizing l with
  | nil =>
    simp only [lookupAgents] at hok
    cases hok
    simp
  | cons v vs ih =>
    simp only [lookupAgents] at hok
    cases hv : g.nodes.lookup v with
    | none => rw [hv] at hok; cases hok
    | some a0 =>
      rw [hv] at hok
      cases hrest : lookupAgents g vs with
      | error e => rw [hrest] at hok; cases hok
      | ok l0 =>
        rw [hrest] at hok
        simp only [Except.map] at hok
        cases hok
        intro a ha
        rcases List.mem_cons.mp ha with rfl | ha0
        · exact ⟨v, List.mem_cons_self v vs, hv⟩
        · obtain ⟨u, hu, hua⟩ := ih l0 hrest a ha0
          exact ⟨u, List.mem_cons_of_mem v hu, hua⟩

lemma lookupAgents_mem_of_lookup (g : Graph Agent) (ids : List Nat) (l : List Agent)
    (hok : lookupAgents g ids = .ok l) (v : Nat) (a : Agent)
    (hv : v ∈ ids) (ha : g.nodes.lookup v = some a) : a ∈ l := by
  induction ids generalizing l with
  | nil => simp at hv
  | cons w ws ih =>
    simp only [lookupAgents] at hok
    cases hw : g.nodes.lookup w with
    | none => rw [hw] at hok; cases hok
    | some a0 =>
      rw [hw] at hok
      cases hrest : lookupAgents g ws with
      | error e => rw [hrest] at hok; cases hok
      | ok l0 =>
        rw [hrest] at hok
        simp only [Except.map] at hok
        cases hok
        rcases List.mem_cons.mp hv with rfl | hv0
        · rw [hw] at ha
          cases ha
          exact List.mem_cons_self _ _
        · exact List.mem_cons_of_mem _ (ih l0 hrest hv0)

/-! ## Helper lemmas on permutations and pointwise counting -/

lemma perm_of_mem_insertions (a : Nat) :
    ∀ (l m : List Nat), m ∈ insertions a l → m.Perm (a :: l) := by
  intro l
  induction l with
  | nil =>
    intro m hm
    simp only [insertions] at hm
    rcases List.mem_singleton.mp hm with rfl
    exact List.Perm.refl _
  | cons b t ih =>
    intro m hm
    simp only [insertions, List.mem_cons, List.mem_map] at hm
    rcases hm with rfl | ⟨m0, hm0, rfl⟩
    · exact List.Perm.refl _
    · exact ((ih m0 hm0).cons b).trans (List.Perm.swap a b t)

lemma perm_of_mem_perms : ∀ (l p : List Nat), p ∈ perms l → p.Perm l := by
  intro l
  induction l with
  | nil =>
    intro p hp
    simp only [perms] at hp
    rcases List.mem_singleton.mp hp with rfl
    exact List.Perm.refl _
  | cons a t ih =>
    intro p hp
    simp only [perms, List.mem_flatMap] at hp
    obtain ⟨q, hq, hpq⟩ := hp
    exact (perm_of_mem_insertions a q p hpq).trans ((ih q hq).cons a)

lemma countP_congr_pointwise :
    ∀ (l1 l2 : List Nat) (f g : Nat → Bool), l1.length = l2.length →
      (∀ i, i < l1.length → f (l1.getD i 0) = g (l2.getD i 0)) →
      l1.countP f = l2.countP g := by
  intro l1
  induction l1 with
  | nil =>
    intro l2 f g hlen _
    cases l2 with
    | nil => rfl
    | cons y ys => simp at hlen
  | cons x xs ih =>
    intro l2 f g hlen hpt
    cases l2 with
    | nil => simp at hlen
    | cons y ys =>
      have h0 : f x = g y := hpt 0 (Nat.succ_pos _)
      have htl : xs.countP f = ys.countP g := by
        refine ih ys f g (Nat.succ.inj hlen) fun i hi => ?_
        simpa using hpt (i + 1) (Nat.succ_lt_succ hi)
      simp [List.countP_cons, h0, htl]

lemma map_congr_pointwise {β : Type} :
    ∀ (l1 l2 : List Nat) (f g : Nat → β), l1.length = l2.length →
      (∀ i, i < l1.length → f (l1.getD i 0) = g (l2.getD i 0)) →
      l1.map f = l2.map g := by
  intro l1
  induction l1 with
  | nil =>
    intro l2 f g hlen _
    cases l2 with
    | nil => rfl
    | cons y ys => simp at hlen
  | cons x xs ih =>
    intro l2 f g hlen hpt
    cases l2 with
    | nil => simp at hlen
    | cons y ys =>
      have h0 : f x = g y := hpt 0 (Nat.succ_pos _)
      have htl : xs.map f = ys.map g := by
        refine ih ys f g (Nat.succ.inj hlen) fun i hi => ?_
        simpa using hpt (i + 1) (Nat.succ_lt_succ hi)
      simp [h0, htl]

/-! ## The fingerprint check is implied by isomorphism -/

lemma multisetEqB_of_perm (l1 l2 : List (Nat × Nat)) (h : l1.Perm l2) :
    multisetEqB l1 l2 = true := by
  simp only [multisetEqB, Bool.and_eq_true, beq_iff_eq, List.all_eq_true]
  exact ⟨h.length_eq, fun x _ => h.countP_eq _⟩

lemma isIsoWith_elim {A B : Type} (g1 : Graph A) (g2 : Graph B) (p : List Nat)
    (h : isIsoWith g1 g2 p = true) :
    (nodeIds g1).length = p.length ∧
    ∀ i j, i < (nodeIds g1).length → j < (nodeIds g1).length →
      adjacent g1 ((nodeIds g1).getD i 0) ((nodeIds g1).getD j 0) =
        adjacent g2 (p.getD i 0) (p.getD j 0) := by
  simp only [isIsoWith, Bool.and_eq_true, beq_iff_eq, List.all_eq_true,
    List.mem_range] at h
  exact ⟨h.1, fun i j hi hj => h.2 i hi j hj⟩

lemma fingerprint_entry_congr {A B : Type} (g1 : Graph A) (g2 : Graph B) (p : List Nat)
    (hlen : (nodeIds g1).length = p.length)
    (hperm : p.Perm (nodeIds g2))
    (H : ∀ i j, i < (nodeIds g1).length → j < (nodeIds g1).length →
      adjacent g1 ((nodeIds g1).getD i 0) ((nodeIds g1).getD j 0) =
        adjacent g2 (p.getD i 0) (p.getD j 0)) :
    ∀ i, i < (nodeIds g1).length →
      (degree g1 ((nodeIds g1).getD i 0), triPairs g1 ((nodeIds g1).getD i 0)) =
        (degree g2 (p.getD i 0), triPairs g2 (p.getD i 0)) := by
  intro i hi
  have hdeg : degree g1 ((nodeIds g1).getD i 0) = degree g2 (p.getD i 0) := by
    unfold degree
    have h1 : (nodeIds g1).countP (fun u => adjacent g1 ((nodeIds g1).getD i 0) u) =
        p.countP (fun u => adjacent g2 (p.getD i 0) u) :=
      countP_congr_pointwise _ _ _ _ hlen (fun j hj => H i j hi hj)
    rw [h1, hperm.countP_eq]
  have htri : triPairs g1 ((nodeIds g1).getD i 0) = triPairs g2 (p.getD i 0) := by
    unfold triPairs
    have hmap : ((nodeIds g1).map fun u =>
        (nodeIds g1).countP fun w =>
          adjacent g1 ((nodeIds g1).getD i 0) u &&
          adjacent g1 ((nodeIds g1).getD i 0) w && adjacent g1 u w) =
        p.map fun u =>
          p.countP fun w =>
            adjacent g2 (p.getD i 0) u && adjacent g2 (p.getD i 0) w && adjacent g2 u w := by
      refine map_congr_pointwise _ _ _ _ hlen fun j hj => ?_
      refine countP_congr_pointwise _ _ _ _ hlen fun k hk => ?_
      rw [H i j hi hj, H i k hi hk, H j k hj hk]
    rw [hmap]
    have hsum : (p.map fun u =>
        p.countP fun w =>
          adjacent g2 (p.getD i 0) u && adjacent g2 (p.getD i 0) w && adjacent g2 u w).sum =
        ((nodeIds g2).map fun u =>
          p.countP fun w =>
            adjacent g2 (p.getD i 0) u && adjacent g2 (p.getD i 0) w && adjacent g2 u w).sum :=
      (hperm.map _).sum_eq
    rw [hsum]
    congr 1
    refine List.map_congr_left fun u _ => hperm.countP_eq _
  rw [hdeg, htri]

lemma fastCould_of_specIsomorphic {A B : Type} (g1 : Graph A) (g2 : Graph B)
    (h : specIsomorphic g1 g2 = true) : fast_could_be_isomorphic g1 g2 = true := by
  simp only [specIsomorphic, List.any_eq_true] at h
  obtain ⟨p, hp, hw⟩ := h
  have hperm : p.Perm (nodeIds g2) := perm_of_mem_perms _ p hp
  obtain ⟨hlen, H⟩ := isIsoWith_elim g1 g2 p hw
  have hlen2 : (nodeIds g1).length = (nodeIds g2).length :=
    hlen.trans hperm.length_eq
  have hfp : fingerprint g1 = p.map fun v => (degree g2 v, triPairs g2 v) := by
    unfold fingerprint
    exact map_congr_pointwise _ _ _ _ hlen
      (fingerprint_entry_congr g1 g2 p hlen hperm H)
  have hfpperm : (fingerprint g1).Perm (fingerprint g2) := by
    rw [hfp]
    exact hperm.map _
  simp only [fast_could_be_isomorphic, Bool.and_eq_true, beq_iff_eq]
  exact ⟨hlen2, multisetEqB_of_perm _ _ hfpperm⟩

/-! ## Behavioural lemmas about the embedded operations -/

lemma get_agent_graphAddNode (g : Graph Agent) (k : Nat) (a : Agent) :
    get_agent (graphAddNode g k a) k = .ok a := by
  unfold get_agent graphAddNode
  by_cases h : (nodeIds g).contains k
  · rw [if_pos h]
    have hm : k ∈ g.nodes.map Prod.fst := by simpa [nodeIds] using h
    simp [lookup_map_replace g.nodes k a hm]
  · rw [if_neg h]
    have hm : k ∉ g.nodes.map Prod.fst := by simpa [nodeIds] using h
    simp [lookup_append_single g.nodes k a hm]

lemma add_node_ok_shape (sim : Simulation) (st : PyVal) (nm : String)
    (sp : List (String × PyVal)) (r : Bool) (sim2 : Simulation) (k : Nat)
    (h : add_node sim st nm sp r = .ok (sim2, k)) :
    k = sim.id_counter ∧ sim2.id_counter = sim.id_counter + 1 ∧
    ∃ a, baseAgentInit (some ()) (PyVal.int sim.id_counter) st (some sim.G) nm
        sim.global_params sp r = .ok a ∧
      sim2.G = graphAddNode sim.G sim.id_counter a := by
  cases hinit : baseAgentInit (some ()) (PyVal.int sim.id_counter) st (some sim.G) nm
      sim.global_params sp r with
  | error e =>
    rw [add_node, hinit] at h
    simp [Bind.bind, Except.bind] at h
  | ok a =>
    rw [add_node, hinit] at h
    simp only [Bind.bind, Except.bind, pure, Except.pure, Except.ok.injEq, Prod.mk.injEq] at h
    obtain ⟨hsim2, hk⟩ := h
    exact ⟨hk.symm, by rw [← hsim2], a, rfl, by rw [← hsim2]⟩

/-- The attribute stored on the edge between `a` and `b` (first matching
edge), `Option.none` when no such edge exists. -/
def edgeAttr (g : Graph Agent) (a b : Nat) : Option PyVal :=
  (g.edges.find? fun e => (e.1.1 == a && e.1.2 == b) || (e.1.1 == b && e.1.2 == a)).map Prod.snd

lemma find?_map_overwrite (a b : Nat) (attr : PyVal) :
    ∀ (l : List ((Nat × Nat) × PyVal)),
      (l.any fun e => (e.1.1 == a && e.1.2 == b) || (e.1.1 == b && e.1.2 == a)) = true →
      ((l.map fun e =>
          if (e.1.1 == a && e.1.2 == b) || (e.1.1 == b && e.1.2 == a) then (e.1, attr) else e).find?
        fun e => (e.1.1 == a && e.1.2 == b) || (e.1.1 == b && e.1.2 == a)).map Prod.snd =
        some attr := by
  intro l
  induction l with
  | nil => intro h; simp at h
  | cons hd tl ih =>
    intro h
    by_cases hp : ((hd.1.1 == a && hd.1.2 == b) || (hd.1.1 == b && hd.1.2 == a)) = true
    · rw [List.map_cons, if_pos hp]
      simp [List.find?_cons, hp]
    · rw [List.map_cons, if_neg hp]
      have h2 : (tl.any fun e => (e.1.1 == a && e.1.2 == b) || (e.1.1 == b && e.1.2 == a)) = true := by
        simp only [List.any_cons] at h
        rcases Bool.or_eq_true_iff.mp h with h1 | h1
        · exact absurd h1 hp
        · exact h1
      simp only [List.find?_cons]
      rw [Bool.not_eq_true] at hp
      rw [hp]
      exact ih h2

lemma edgeAttr_graphAddEdge (g : Graph Agent) (a b : Nat) (attr : PyVal) :
    edgeAttr (graphAddEdge g a b attr) a b = some attr := by
  unfold edgeAttr graphAddEdge
  by_cases h : (g.edges.any fun e => (e.1.1 == a && e.1.2 == b) || (e.1.1 == b && e.1.2 == a)) = true
  · rw [if_pos h]
    exact find?_map_overwrite a b attr g.edges h
  · rw [if_neg h]
    have hnone : (g.edges.find? fun e => (e.1.1 == a && e.1.2 == b) || (e.1.1 == b && e.1.2 == a)) = Option.none := by
      rw [List.find?_eq_none]
      intro x hx hpx
      exact h (List.any_eq_true.mpr ⟨x, hx, hpx⟩)
    rw [List.find?_append, hnone]
    simp

lemma adjacent_of_edgeAttr (g : Graph Agent) (a b : Nat) (v : PyVal)
    (h : edgeAttr g a b = some v) : adjacent g a b = true := by
  unfold edgeAttr at h
  cases hf : g.edges.find? fun e => (e.1.1 == a && e.1.2 == b) || (e.1.1 == b && e.1.2 == a) with
  | none => rw [hf] at h; simp at h
  | some e =>
    have hp := List.find?_some hf
    have hm := List.mem_of_find?_eq_some hf
    exact List.any_eq_true.mpr ⟨e, hm, hp⟩

lemma log_current_state_state_tuples (l : LoggerState) (G : Graph Agent) (now : Nat) :
    (log_current_state l G now).state_tuples =
      l.state_tuples ++ [{ time := now, states := G.nodes.map fun nd => nd.2.state }] := by
  unfold log_current_state
  split <;> rfl

lemma loggerRun_state_length :
    ∀ (ticks : List (Graph Agent × Nat)) (l : LoggerState),
      (loggerRun l ticks).state_tuples.length = l.state_tuples.length + ticks.length := by
  intro ticks
  induction ticks with
  | nil => intro l; simp [loggerRun]
  | cons t ts ih =>
    intro l
    have hstep : (log_current_state l t.1 t.2).state_tuples.length =
        l.state_tuples.length + 1 := by
      rw [log_current_state_state_tuples]
      simp
    calc (loggerRun l (t :: ts)).state_tuples.length
        = (loggerRun (log_current_state l t.1 t.2) ts).state_tuples.length := rfl
      _ = (log_current_state l t.1 t.2).state_tuples.length + ts.length := ih _
      _ = l.state_tuples.length + 1 + ts.length := by rw [hstep]
      _ = l.state_tuples.length + (t :: ts).length := by simp [List.length_cons]; omega

lemma log_current_state_changed (l : LoggerState) (G : Graph Agent) (now : Nat)
    (h : fast_could_be_isomorphic l.topology G = false) :
    (log_current_state l G now).topology = create_copy_without_data G ∧
    (log_current_state l G now).topology_tuples =
      l.topology_tuples ++ [{ time := now, topology := create_copy_without_data G }] := by
  unfold log_current_state
  rw [h]
  exact ⟨rfl, rfl⟩

lemma log_current_state_unchanged (l : LoggerState) (G : Graph Agent) (now : Nat)
    (h : fast_could_be_isomorphic l.topology G = true) :
    (log_current_state l G now).topology_tuples = l.topology_tuples ∧
    (log_current_state l G now).topology = l.topology := by
  unfold log_current_state
  rw [h]
  exact ⟨rfl, rfl⟩

/-! ## Concrete fixtures for witnesses and counterexamples -/

/-- An empty topology. -/
def emptyG : Graph Agent := { nodes := [], edges := [] }

/-- A fresh simulation context (run start). -/
def simW : Simulation := { G := emptyG, id_counter := 0, global_params := [] }

/-- The agent `add_node` creates first in `simW`. -/
def agentW : Agent :=
  { id := PyVal.int 0, state := PyVal.str "alive", name := "n",
    state_params := [], global_params := [] }

/-- `simW` after one successful `add_node`. -/
def simW1 : Simulation :=
  { G := { nodes := [(0, agentW)], edges := [] }, id_counter := 1, global_params := [] }

/-- A two-node, one-edge topology for lookup/edge witnesses. -/
def gW : Graph Agent :=
  { nodes := [(1, agentW), (2, { agentW with id := PyVal.int 2, state := PyVal.str "idle" })],
    edges := [((1, 2), PyVal.none)] }

/-! ## C3 — construction with a missing required argument -/

/-- **C3** (code evaluated at the failing input, plus the three omissions
that do fail): omitting `agent_id` does NOT fail — the declared default
`0` satisfies the `is not None` assert and construction succeeds with id 0
— while omitting `environment`, a non-empty `state`, or `global_topology`
raises a construction error exactly as claimed. -/
theorem C3_omitted_agent_id_constructs :
    baseAgentInitNoAgentId (some ()) (PyVal.str "alive") (some emptyG) true =
      .ok { id := PyVal.int 0, state := PyVal.str "alive", name := "network_process",
            state_params := [], global_params := [] } ∧
    baseAgentInit Option.none (PyVal.int 1) (PyVal.str "alive") (some emptyG) "n" [] [] true =
      .error (.assertionError "__init__ missing 1 required keyword argument: environment") ∧
    baseAgentInit (some ()) (PyVal.int 1) PyVal.none (some emptyG) "n" [] [] true =
      .error (.typeError "object of type NoneType has no len()") ∧
    baseAgentInit (some ()) (PyVal.int 1) (PyVal.str "") (some emptyG) "n" [] [] true =
      .error (.assertionError "__init__ missing 1 required keyword argument: state") ∧
    baseAgentInit (some ()) (PyVal.int 1) (PyVal.str "alive") Option.none "n" [] [] true =
      .error (.assertionError "__init__ missing 1 required keyword argument: global_topology") :=
  ⟨rfl, rfl, rfl, rfl, rfl⟩

/-! ## C10 — BaseAgent.run reached during construction -/

/-- **C10.** With all required arguments supplied, constructing a
`BaseAgent` (or any subclass that does not override `run`) raises
`NotImplementedError` during `__init__` itself: the process-registration
line evaluates `self.run()`, whose base implementation raises. -/
theorem C10_run_not_implemented_at_construction (agent_id : PyVal) (s : String)
    (gt : Graph Agent) (name : String) (gp sp : List (String × PyVal))
    (hid : agent_id ≠ PyVal.none) (hs : s.length ≠ 0) :
    baseAgentInit (some ()) agent_id (PyVal.str s) (some gt) name gp sp false =
      .error .notImplementedError := by
  unfold baseAgentInit
  simp [hid, pyLen, hs, Bind.bind, Except.bind, throw, throwThe, MonadExceptOf.throw,
    pure, Except.pure]

/-- Witness for C10 at a concrete fully-supplied construction. -/
theorem C10_witness :
    baseAgentInit (some ()) (PyVal.int 5) (PyVal.str "alive") (some emptyG) "n" [] [] false =
      .error .notImplementedError :=
  C10_run_not_implemented_at_construction (PyVal.int 5) "alive" emptyG "n" [] []
    (by decide) (by decide)

/-! ## C4 — add_node id allocation -/

/-- **C4.** A successful `add_node` returns the id it allocated (the
current counter value); immediately afterwards `get_agent` on that id
returns the just-created agent; the id is strictly greater than every
previously allocated id (all of which lie below the counter); and a
second `add_node` with no intervening suspension returns a strictly
larger, hence distinct, id. -/
theorem C4_add_node_spec (sim : Simulation) (state : PyVal) (name : String)
    (sp : List (String × PyVal)) (r : Bool) (sim2 : Simulation) (k : Nat)
    (h : add_node sim state name sp r = .ok (sim2, k)) :
    k = sim.id_counter ∧
    sim2.id_counter = sim.id_counter + 1 ∧
    (∃ a, baseAgentInit (some ()) (PyVal.int k) state (some sim.G) name
        sim.global_params sp r = .ok a ∧
      get_agent sim2.G k = .ok a) ∧
    (∀ j, j < sim.id_counter → j < k) ∧
    (∀ st2 nm2 sp2 r2 sim3 k2, add_node sim2 st2 nm2 sp2 r2 = .ok (sim3, k2) →
      k < k2 ∧ k ≠ k2) := by
  obtain ⟨hk, hc, a, hinit, hG⟩ := add_node_ok_shape sim state name sp r sim2 k h
  subst hk
  refine ⟨rfl, hc, ⟨a, hinit, by rw [hG]; exact get_agent_graphAddNode _ _ _⟩,
    fun j hj => hj, ?_⟩
  intro st2 nm2 sp2 r2 sim3 k2 h2
  obtain ⟨hk2, _, _⟩ := add_node_ok_shape sim2 st2 nm2 sp2 r2 sim3 k2 h2
  subst hk2
  rw [hc]
  exact ⟨Nat.lt_succ_self _, Nat.ne_of_lt (Nat.lt_succ_self _)⟩

/-- Witness for C4: the first allocation in a fresh run. -/
theorem C4_add_node_witness :
    0 = simW.id_counter ∧
    simW1.id_counter = simW.id_counter + 1 ∧
    (∃ a, baseAgentInit (some ()) (PyVal.int 0) (PyVal.str "alive") (some simW.G) "n"
        simW.global_params [] true = .ok a ∧
      get_agent simW1.G 0 = .ok a) ∧
    (∀ j, j < simW.id_counter → j < 0) ∧
    (∀ st2 nm2 sp2 r2 sim3 k2, add_node simW1 st2 nm2 sp2 r2 = .ok (sim3, k2) →
      0 < k2 ∧ 0 ≠ k2) :=
  C4_add_node_spec simW (PyVal.str "alive") "n" [] true simW1 0 rfl

/-! ## C5 — add_edge validation -/

/-- **C5.** `add_edge(a, b)` raises a `ValueError` naming `b` when `b` is
not a node while `a` is; raises a `ValueError` naming `a` when `a` is not
a node; and when both exist it inserts (or overwrites the attributes of)
the edge between them. -/
theorem C5_add_edge_spec (g : Graph Agent) (a b : Nat) (attr : PyVal) :
    ((nodeIds g).contains a = true → (nodeIds g).contains b = false →
      add_edge g a b attr = .error (.valueError ("agent_id2[" ++ toString b ++
        "] not in list of existing agents in the network"))) ∧
    ((nodeIds g).contains a = false →
      add_edge g a b attr = .error (.valueError ("agent_id1[" ++ toString a ++
        "] not in list of existing agents in the network"))) ∧
    ((nodeIds g).contains a = true → (nodeIds g).contains b = true →
      add_edge g a b attr = .ok (graphAddEdge g a b attr) ∧
      edgeAttr (graphAddEdge g a b attr) a b = some attr ∧
      adjacent (graphAddEdge g a b attr) a b = true) := by
  refine ⟨fun ha hb => ?_, fun ha => ?_, fun ha hb => ?_⟩
  · have ha2 : a ∈ nodeIds g := by simpa using ha
    have hb2 : b ∉ nodeIds g := by simpa using hb
    simp [add_edge, ha2, hb2]
  · have ha2 : a ∉ nodeIds g := by simpa using ha
    simp [add_edge, ha2]
  · have ha2 : a ∈ nodeIds g := by simpa using ha
    have hb2 : b ∈ nodeIds g := by simpa using hb
    exact ⟨by simp [add_edge, ha2, hb2],
      edgeAttr_graphAddEdge g a b attr,
      adjacent_of_edgeAttr _ a b attr (edgeAttr_graphAddEdge g a b attr)⟩

/-- Witness for C5: all three branches at a concrete two-node topology. -/
theorem C5_add_edge_witness :
    (add_edge gW 1 7 (PyVal.int 9) = .error (.valueError ("agent_id2[" ++ toString 7 ++
      "] not in list of existing agents in the network"))) ∧
    (add_edge gW 7 2 (PyVal.int 9) = .error (.valueError ("agent_id1[" ++ toString 7 ++
      "] not in list of existing agents in the network"))) ∧
    (add_edge gW 1 2 (PyVal.int 9) = .ok (graphAddEdge gW 1 2 (PyVal.int 9)) ∧
      edgeAttr (graphAddEdge gW 1 2 (PyVal.int 9)) 1 2 = some (PyVal.int 9) ∧
      adjacent (graphAddEdge gW 1 2 (PyVal.int 9)) 1 2 = true) :=
  ⟨(C5_add_edge_spec gW 1 7 (PyVal.int 9)).1 (by decide) (by decide),
   (C5_add_edge_spec gW 7 2 (PyVal.int 9)).2.1 (by decide),
   (C5_add_edge_spec gW 1 2 (PyVal.int 9)).2.2 (by decide) (by decide)⟩

/-! ## C6 — remove_node erases the node and its incident edges -/

/-- **C6.** For a node id `k` present in the topology, `remove_node k`
succeeds; afterwards `get_agent k` fails with a `KeyError` and no
remaining edge has `k` as an endpoint. -/
theorem C6_remove_node_spec (g : Graph Agent) (k : Nat)
    (h : (nodeIds g).contains k = true) :
    ∃ g2, remove_node g k = .ok g2 ∧
      get_agent g2 k = .error (.keyError k) ∧
      ∀ e ∈ g2.edges, e.1.1 ≠ k ∧ e.1.2 ≠ k := by
  refine ⟨{ nodes := g.nodes.filter fun nd => nd.1 ≠ k,
            edges := g.edges.filter fun e => e.1.1 ≠ k && e.1.2 ≠ k },
          by have h2 : k ∈ nodeIds g := by simpa using h
             simp [remove_node, h2], ?_, ?_⟩
  · unfold get_agent
    rw [lookup_filter_ne]
  · intro e he
    have h2 := (List.mem_filter.mp he).2
    simpa using h2

/-- Witness for C6: removing node 1 from the concrete topology. -/
theorem C6_remove_node_witness :
    ∃ g2, remove_node gW 1 = .ok g2 ∧
      get_agent g2 1 = .error (.keyError 1) ∧
      ∀ e ∈ g2.edges, e.1.1 ≠ 1 ∧ e.1.2 ≠ 1 :=
  C6_remove_node_spec gW 1 (by decide)

/-! ## C7 — a StateTuple at every tick, unconditionally -/

/-- **C7.** Every `log_current_state` call appends exactly one
`StateTuple` carrying the node-iteration-order states — on both branches
of the topology test — and over any run schedule the number of
`StateTuple` records grows by exactly one per tick. -/
theorem C7_state_tuple_unconditional (l : LoggerState) (G : Graph Agent) (now : Nat) :
    (log_current_state l G now).state_tuples =
      l.state_tuples ++ [{ time := now, states := G.nodes.map fun nd => nd.2.state }] ∧
    ∀ ticks : List (Graph Agent × Nat),
      (loggerRun l ticks).state_tuples.length = l.state_tuples.length + ticks.length :=
  ⟨log_current_state_state_tuples l G now, fun ticks => loggerRun_state_length ticks l⟩

/-! ## C8 — neighbour-limited queries return a subset -/

/-- **C8.** For every state filter `S` (including `S = None`) and every
topology containing the querying agent's node, the list returned by
`get_agents(state=S, limit_neighbors=True)` is a subset of the one
returned by `get_agents(state=S, limit_neighbors=False)`. -/
theorem C8_neighbors_subset (g : Graph Agent) (selfId : Nat) (S : Option PyVal)
    (h : (nodeIds g).contains selfId = true) :
    ∃ l1 l2, get_agents g selfId S true = .ok l1 ∧
      get_agents g selfId S false = .ok l2 ∧ l1 ⊆ l2 := by
  have hn : neighbors g selfId = .ok ((nodeIds g).filter fun u => adjacent g selfId u) := by
    have h2 : selfId ∈ nodeIds g := by simpa using h
    simp [neighbors, h2]
  have hsubids : ∀ v ∈ (nodeIds g).filter fun u => adjacent g selfId u, v ∈ nodeIds g :=
    fun v hv => (List.mem_filter.mp hv).1
  obtain ⟨l1, hl1⟩ := lookupAgents_ok_of_mem g _ hsubids
  obtain ⟨l2, hl2⟩ := lookupAgents_ok_of_mem g (nodeIds g) fun v hv => hv
  have hss : l1 ⊆ l2 := by
    intro x hx
    obtain ⟨v, hv, hvx⟩ := mem_of_lookupAgents g _ l1 hl1 x hx
    exact lookupAgents_mem_of_lookup g (nodeIds g) l2 hl2 v x (hsubids v hv) hvx
  cases S with
  | none =>
    refine ⟨l1, l2, ?_, ?_, hss⟩
    · simp [get_agents, hn, hl1, Bind.bind, Except.bind, pure, Except.pure]
    · simp [get_agents, hl2, Bind.bind, Except.bind, pure, Except.pure]
  | some s =>
    refine ⟨l1.filter fun x => x.state == s, l2.filter fun x => x.state == s, ?_, ?_, ?_⟩
    · simp [get_agents, hn, hl1, Bind.bind, Except.bind, pure, Except.pure]
    · simp [get_agents, hl2, Bind.bind, Except.bind, pure, Except.pure]
    · intro x hx
      have hm := List.mem_filter.mp hx
      exact List.mem_filter.mpr ⟨hss hm.1, hm.2⟩

/-- Witness for C8 at the concrete two-node topology, with a state
filter. -/
theorem C8_neighbors_subset_witness :
    ∃ l1 l2, get_agents gW 1 (some (PyVal.str "idle")) true = .ok l1 ∧
      get_agents gW 1 (some (PyVal.str "idle")) false = .ok l2 ∧ l1 ⊆ l2 :=
  C8_neighbors_subset gW 1 (some (PyVal.str "idle")) (by decide)

/-! ## C9 — log_trial_to_files parameter validation -/

/-- **C9.** `log_trial_to_files` without a `trial_id` (i.e. `None`) fails
with a parameter error and serializes nothing; with a `trial_id` it hands
off the accumulated `StateTuple` sequence keyed by that id. -/
theorem C9_log_trial_spec (l : LoggerState) :
    log_trial_to_files l Option.none = .error (.assertionError
      "missing 1 required keyword argument: trial_id. Cannot be set to NoneType") ∧
    ∀ t, log_trial_to_files l (some t) =
      .ok { trial_id := t, dir_path := l.dir_path, states := l.state_tuples } :=
  ⟨rfl, fun _ => rfl⟩

/-! ## C1/C2 fixtures

Two non-isomorphic 6-node graphs with identical degree sequences
(2,2,2,2,1,1) and no triangles: a 4-cycle plus a disjoint edge, and a
6-path. `nx.fast_could_be_isomorphic` cannot tell them apart. -/

/-- A node-bound agent with id `i` used to populate fixture graphs. -/
def cexAgent (i : Nat) : Agent :=
  { id := PyVal.int i, state := PyVal.str "s", name := "network_process",
    state_params := [], global_params := [] }

/-- Stored snapshot: a 4-cycle `0-1-2-3-0` plus the disjoint edge `4-5`. -/
def snapCex : Graph Unit :=
  { nodes := [(0, ()), (1, ()), (2, ()), (3, ()), (4, ()), (5, ())],
    edges := [((0, 1), PyVal.none), ((1, 2), PyVal.none), ((2, 3), PyVal.none),
              ((3, 0), PyVal.none), ((4, 5), PyVal.none)] }

/-- Current topology: the 6-path `0-1-2-3-4-5` — not isomorphic to
`snapCex` (it is connected and acyclic), same fingerprint. -/
def curCex : Graph Agent :=
  { nodes := [(0, cexAgent 0), (1, cexAgent 1), (2, cexAgent 2), (3, cexAgent 3),
              (4, cexAgent 4), (5, cexAgent 5)],
    edges := [((0, 1), PyVal.none), ((1, 2), PyVal.none), ((2, 3), PyVal.none),
              ((3, 4), PyVal.none), ((4, 5), PyVal.none)] }

/-- Logger state holding `snapCex` as the last stored snapshot. -/
def lCex : LoggerState :=
  { dir_path := "sim_01", interval := 1, state_tuples := [],
    state_vector_tuples := [], topology_tuples := [], topology := snapCex }

/-- Same shapes with the roles swapped and the nodes relabeled to
`10..15`: snapshot is the path, current is the 4-cycle plus an edge. -/
def snapCex2 : Graph Unit :=
  { nodes := [(10, ()), (11, ()), (12, ()), (13, ()), (14, ()), (15, ())],
    edges := [((10, 11), PyVal.none), ((11, 12), PyVal.none), ((12, 13), PyVal.none),
              ((13, 14), PyVal.none), ((14, 15), PyVal.none)] }

/-- Current topology for the C2 counterexample: a rewiring of `snapCex2`
into a 4-cycle `10-11-12-13-10` plus the disjoint edge `14-15`. -/
def curCex2 : Graph Agent :=
  { nodes := [(10, cexAgent 10), (11, cexAgent 11), (12, cexAgent 12), (13, cexAgent 13),
              (14, cexAgent 14), (15, cexAgent 15)],
    edges := [((10, 11), PyVal.none), ((11, 12), PyVal.none), ((12, 13), PyVal.none),
              ((13, 10), PyVal.none), ((14, 15), PyVal.none)] }

/-- Logger state holding `snapCex2` as the last stored snapshot. -/
def lCex2 : LoggerState :=
  { dir_path := "sim_01", interval := 1, state_tuples := [],
    state_vector_tuples := [], topology_tuples := [], topology := snapCex2 }

/-- Stored snapshot for the C2 witness: a triangle on `0,1,2`. -/
def snapTri : Graph Unit :=
  { nodes := [(0, ()), (1, ()), (2, ())],
    edges := [((0, 1), PyVal.none), ((1, 2), PyVal.none), ((2, 0), PyVal.none)] }

/-- Current topology for the C2 witness: the same triangle relabeled to
`5,6,7` — isomorphic to `snapTri` with different node identities. -/
def curTri : Graph Agent :=
  { nodes := [(5, cexAgent 5), (6, cexAgent 6), (7, cexAgent 7)],
    edges := [((5, 6), PyVal.none), ((6, 7), PyVal.none), ((7, 5), PyVal.none)] }

/-- Logger state holding `snapTri` as the last stored snapshot. -/
def lTri : LoggerState :=
  { dir_path := "sim_01", interval := 1, state_tuples := [],
    state_vector_tuples := [],
    topology_tuples := [{ time := 0, topology := snapTri }], topology := snapTri }

/-- A one-node topology used for the C1 witness. -/
def gOne : Graph Agent := { nodes := [(0, cexAgent 0)], edges := [] }

/-! ## C1 — snapshot replacement and TopologyTuple on change -/

/-- **C1** (amended): at every logger sampling tick at which the stored
snapshot and the current topology differ in node count or in their sorted
per-node `(degree, triangles)` fingerprints — i.e. at which
`nx.fast_could_be_isomorphic` returns false — `log_current_state`
replaces the stored snapshot with a structure-only copy of the current
topology and appends a `TopologyTuple` whose time field is the current
simulated time. (The original "not structurally equivalent" trigger is
refuted by `C1_counterexample_change_without_record`.) -/
theorem C1_snapshot_replaced_on_fingerprint_change (l : LoggerState) (G : Graph Agent)
    (now : Nat) (h : fast_could_be_isomorphic l.topology G = false) :
    (log_current_state l G now).topology = create_copy_without_data G ∧
    (log_current_state l G now).topology_tuples =
      l.topology_tuples ++ [{ time := now, topology := create_copy_without_data G }] :=
  log_current_state_changed l G now h

/-- Witness for C1: the first tick of a run with a non-empty graph (the
stored snapshot is still the empty graph, so the fingerprint test
fails). -/
theorem C1_snapshot_replaced_witness :
    (log_current_state (loggerInit "sim_01" 1) gOne 3).topology =
      create_copy_without_data gOne ∧
    (log_current_state (loggerInit "sim_01" 1) gOne 3).topology_tuples =
      [{ time := 3, topology := create_copy_without_data gOne }] :=
  C1_snapshot_replaced_on_fingerprint_change (loggerInit "sim_01" 1) gOne 3 (by decide)

set_option maxRecDepth 400000 in
/-- **C1** (counterexample): a tick at which the current topology
(`curCex`, a 6-path) is NOT structurally equivalent to the stored
snapshot (`snapCex`, a 4-cycle plus an edge), yet `log_current_state`
neither replaces the snapshot nor appends a `TopologyTuple`: the two
graphs share node count, degree sequence and triangle counts, so the
code's `fast_could_be_isomorphic` test passes. -/
theorem C1_counterexample_change_without_record :
    specIsomorphic lCex.topology curCex = false ∧
    (log_current_state lCex curCex 5).topology_tuples = lCex.topology_tuples ∧
    (log_current_state lCex curCex 5).topology = lCex.topology :=
  ⟨by decide, by decide, by decide⟩

/-! ## C2 — which ticks produce a TopologyTuple -/

/-- **C2** (amended): a new `TopologyTuple` is appended exactly when the
`(node count, sorted degree/triangle fingerprint)` test
`nx.fast_could_be_isomorphic` fails between the stored snapshot and the
current topology. Topologies that are structurally equivalent (isomorphic
up to relabeling) always pass the test and hence are coalesced — but the
converse of the original claim fails: some growth/shrink/rewiring events
with matching fingerprints also produce no record (see
`C2_counterexample_rewiring_without_record`). -/
theorem C2_record_iff_fingerprint_change (l : LoggerState) (G : Graph Agent) (now : Nat) :
    (specIsomorphic l.topology G = true →
      (log_current_state l G now).topology_tuples = l.topology_tuples) ∧
    (fast_could_be_isomorphic l.topology G = true →
      (log_current_state l G now).topology_tuples = l.topology_tuples) ∧
    (fast_could_be_isomorphic l.topology G = false →
      (log_current_state l G now).topology_tuples =
        l.topology_tuples ++ [{ time := now, topology := create_copy_without_data G }]) :=
  ⟨fun h => (log_current_state_unchanged l G now (fastCould_of_specIsomorphic _ _ h)).1,
   fun h => (log_current_state_unchanged l G now h).1,
   fun h => (log_current_state_changed l G now h).2⟩

/-- Witness for C2: a tick whose topology is the stored triangle
relabeled (`0,1,2` ↦ `5,6,7`) — isomorphic, so no new record. -/
theorem C2_record_iff_witness :
    (log_current_state lTri curTri 7).topology_tuples = lTri.topology_tuples :=
  (C2_record_iff_fingerprint_change lTri curTri 7).1 (by decide)

set_option maxRecDepth 400000 in
/-- **C2** (counterexample): a genuine rewiring event — the stored 6-path
snapshot (`snapCex2`) became a 4-cycle plus a disjoint edge (`curCex2`),
two non-isomorphic graphs — that appends NO new `TopologyTuple`, because
both have fingerprint `(2,0) x4, (1,0) x2`. -/
theorem C2_counterexample_rewiring_without_record :
    specIsomorphic lCex2.topology curCex2 = false ∧
    (log_current_state lCex2 curCex2 9).topology_tuples = lCex2.topology_tuples :=
  ⟨by decide, by decide⟩

